import Mathlib

/-!
Shallow embedding of `server.go` from the nasa-apod-api-go repository.

The server keeps two in-memory stores: an image cache (`imageStore.store`,
a Go map from image URL to `Image`) and a user registry (`users.store`, a
Go map from user email to a `user` record whose `store` field maps image
URLs to integer ratings).  Go maps are modelled as association lists with
exact key equality; `mapLookup`, `mapInsert` and `mapErase` mirror Go map
read, write and `delete`.  Each HTTP handler becomes a pure function from
the store and the (already JSON-decoded) request to a response paired with
the next store state.  The distinct response bodies written by the Go code
(via `fmt.Sprintf` / JSON encoding) are modelled by the `Msg` inductive,
one constructor per distinct write in the source, so that the different
400-level failures remain distinguishable exactly as they are on the wire.
Mutexes are dropped: the embedding is the sequential semantics of each
handler body.
-/

namespace ApodServer

/-- `APPLICATION_JSON` constant from server.go. -/
def APPLICATION_JSON : String := "application/json"

/-- HTTP verb constant from server.go. -/
def GET : String := "GET"

/-- HTTP verb constant from server.go. -/
def POST : String := "POST"

/-- HTTP verb constant from server.go. -/
def PUT : String := "PUT"

/-- HTTP verb constant from server.go. -/
def DELETE : String := "DELETE"

/-- Go map lookup `v, ok := m[k]` on an association list with String keys. -/
def mapLookup {β : Type} (m : List (String × β)) (k : String) : Option β :=
  match m with
  | [] => none
  | (k1, v1) :: rest => if k1 = k then some v1 else mapLookup rest k

/-- Go map write `m[k] = v`: replace the entry for `k` if present, else add it. -/
def mapInsert {β : Type} (m : List (String × β)) (k : String) (v : β) :
    List (String × β) :=
  match m with
  | [] => [(k, v)]
  | (k1, v1) :: rest => if k1 = k then (k, v) :: rest else (k1, v1) :: mapInsert rest k v

/-- Go `delete(m, k)`: remove every entry for `k`. -/
def mapErase {β : Type} (m : List (String × β)) (k : String) : List (String × β) :=
  match m with
  | [] => []
  | (k1, v1) :: rest => if k1 = k then mapErase rest k else (k1, v1) :: mapErase rest k

/-- The `Image` JSON record from server.go. -/
structure Image where
  date : String
  explanation : String
  title : String
  url : String
deriving DecidableEq, Repr

/-- `imageStore.store`: Go map from image URL to `Image`. -/
abbrev ImageCache := List (String × Image)

/-- A user's rating collection `user.store`: Go map from image URL to rating. -/
abbrev RatingStore := List (String × Int)

/-- The registry `users.store`: Go map from email to the user's rating store.
The per-user mutex of the Go `user` struct has no sequential content. -/
abbrev UserStore := List (String × RatingStore)

/-- An inbound HTTP request after JSON decoding: the method, the
content-type header, the three fields of the decoded `User` body struct,
and the URL query-string `email` parameter (present on the wire but never
read by server.go, which decodes only the body). -/
structure Request where
  method : String
  contentType : String
  email : String
  imageURL : String
  rating : Int
  queryEmail : String
deriving DecidableEq, Repr

/-- The distinct response bodies written by server.go, one constructor per
`w.Write` / `json.NewEncoder(w).Encode` call site. -/
inductive Msg where
  | needEmail
  | needImageURL
  | needRating
  | userExists (e : String)
  | userNotExist (e : String)
  | userCreated (e : String)
  | userDeleted (e : String)
  | imageExists (u : String)
  | imageNotExistUpdate (u : String)
  | imageNotExistDelete (u : String)
  | ratingSaved
  | ratingUpdated
  | ratingDeleted
  | needJson (ct : String)
  | methodNotAllowed
  | ratingsJson (store : RatingStore)
  | imageJson (img : Image)
deriving DecidableEq, Repr

/-- An HTTP response: the status code passed to `w.WriteHeader` and the body. -/
structure Resp where
  status : Nat
  body : Msg
deriving DecidableEq, Repr

/-- `createUser` (server.go lines 138-170): content-type check, empty-email
check, then duplicate check under the registry lock; on success inserts a
fresh user with an empty rating store. -/
def createUser (s : UserStore) (r : Request) : Resp × UserStore :=
  if r.contentType ≠ APPLICATION_JSON then (⟨415, .needJson r.contentType⟩, s)
  else if r.email = "" ∨ r.email.length = 0 then (⟨400, .needEmail⟩, s)
  else
    match mapLookup s r.email with
    | some _ => (⟨400, .userExists r.email⟩, s)
    | none => (⟨201, .userCreated r.email⟩, mapInsert s r.email [])

/-- `deleteUser` (server.go lines 173-202): content-type check, empty-email
check, then deletes the key if present and reports 204 either way. -/
def deleteUser (s : UserStore) (r : Request) : Resp × UserStore :=
  if r.contentType ≠ APPLICATION_JSON then (⟨415, .needJson r.contentType⟩, s)
  else if r.email = "" ∨ r.email.length = 0 then (⟨400, .needEmail⟩, s)
  else
    match mapLookup s r.email with
    | some _ => (⟨204, .userDeleted r.email⟩, mapErase s r.email)
    | none => (⟨204, .userDeleted r.email⟩, s)

/-- `userHandlers` (server.go lines 122-135): dispatch on the HTTP method. -/
def userHandlers (s : UserStore) (r : Request) : Resp × UserStore :=
  if r.method = POST then createUser s r
  else if r.method = DELETE then deleteUser s r
  else (⟨405, .methodNotAllowed⟩, s)

/-- `saveRating` (server.go lines 234-283): empty-email check, empty-imageURL
check (whose second disjunct re-tests the email length, as in the source),
rating range check, user resolution, duplicate check, then insert. -/
def saveRating (s : UserStore) (r : Request) : Resp × UserStore :=
  if r.email = "" ∨ r.email.length = 0 then (⟨400, .needEmail⟩, s)
  else if r.imageURL = "" ∨ r.email.length = 0 then (⟨400, .needImageURL⟩, s)
  else if r.rating < 1 ∨ r.rating > 5 then (⟨400, .needRating⟩, s)
  else
    match mapLookup s r.email with
    | none => (⟨400, .userNotExist r.email⟩, s)
    | some existingUser =>
      match mapLookup existingUser r.imageURL with
      | some _ => (⟨400, .imageExists r.imageURL⟩, s)
      | none =>
        (⟨201, .ratingSaved⟩,
          mapInsert s r.email (mapInsert existingUser r.imageURL r.rating))

/-- `getRatings` (server.go lines 286-314): empty-email check, user
resolution, then a 200 response carrying the user's whole rating store. -/
def getRatings (s : UserStore) (r : Request) : Resp × UserStore :=
  if r.email = "" ∨ r.email.length = 0 then (⟨400, .needEmail⟩, s)
  else
    match mapLookup s r.email with
    | none => (⟨400, .userNotExist r.email⟩, s)
    | some existingUser => (⟨200, .ratingsJson existingUser⟩, s)

/-- `updateRating` (server.go lines 317-367): the same field checks as
`saveRating`, user resolution, then overwrites an existing rating or fails
with 400 when the pair has none. -/
def updateRating (s : UserStore) (r : Request) : Resp × UserStore :=
  if r.email = "" ∨ r.email.length = 0 then (⟨400, .needEmail⟩, s)
  else if r.imageURL = "" ∨ r.email.length = 0 then (⟨400, .needImageURL⟩, s)
  else if r.rating < 1 ∨ r.rating > 5 then (⟨400, .needRating⟩, s)
  else
    match mapLookup s r.email with
    | none => (⟨400, .userNotExist r.email⟩, s)
    | some existingUser =>
      match mapLookup existingUser r.imageURL with
      | none => (⟨400, .imageNotExistUpdate r.imageURL⟩, s)
      | some _ =>
        (⟨204, .ratingUpdated⟩,
          mapInsert s r.email (mapInsert existingUser r.imageURL r.rating))

/-- `deleteRating` (server.go lines 370-414): empty-email and empty-imageURL
checks, user resolution, then removes an existing rating or fails with 400
when the pair has none. -/
def deleteRating (s : UserStore) (r : Request) : Resp × UserStore :=
  if r.email = "" ∨ r.email.length = 0 then (⟨400, .needEmail⟩, s)
  else if r.imageURL = "" ∨ r.email.length = 0 then (⟨400, .needImageURL⟩, s)
  else
    match mapLookup s r.email with
    | none => (⟨400, .userNotExist r.email⟩, s)
    | some existingUser =>
      match mapLookup existingUser r.imageURL with
      | none => (⟨400, .imageNotExistDelete r.imageURL⟩, s)
      | some _ =>
        (⟨204, .ratingDeleted⟩,
          mapInsert s r.email (mapErase existingUser r.imageURL))

/-- `ratingHandlers` (server.go lines 205-231): the content-type check comes
first, before the method dispatch. -/
def ratingHandlers (s : UserStore) (r : Request) : Resp × UserStore :=
  if r.contentType ≠ APPLICATION_JSON then (⟨415, .needJson r.contentType⟩, s)
  else if r.method = GET then getRatings s r
  else if r.method = PUT then updateRating s r
  else if r.method = POST then saveRating s r
  else if r.method = DELETE then deleteRating s r
  else (⟨405, .methodNotAllowed⟩, s)

/-- What the external image provider call (`http.Get` plus JSON decode in
`imageHandler`) produced: a transport error, a body that fails to decode,
or the decoded array of image records. -/
inductive ProviderResult where
  | transportError
  | parseError
  | ok (imgs : List Image)
deriving DecidableEq, Repr

/-- How a call to `imageHandler` ends: `exit c` models `os.Exit(c)`,
`panicked` models a Go `panic` (including the index panic on an empty
array), and `response` is a normal HTTP response. -/
inductive FetchOutcome where
  | exit (code : Nat)
  | panicked
  | response (resp : Resp)
deriving DecidableEq, Repr

/-- `imageHandler` (server.go lines 95-119), the `fetchAndCache` operation:
on a transport error it calls `os.Exit(1)`; on a decode error it panics;
otherwise it takes `images[0]` (panicking on an empty array), stores it in
the cache keyed by its url, and returns it with status 200. -/
def imageHandler (p : ProviderResult) (c : ImageCache) : FetchOutcome × ImageCache :=
  match p with
  | .transportError => (.exit 1, c)
  | .parseError => (.panicked, c)
  | .ok imgs =>
    match imgs with
    | [] => (.panicked, c)
    | image :: _ =>
      (.response ⟨200, .imageJson image⟩, mapInsert c image.url image)

/-- Lookup after a Go map write: the written key reads back the new value,
every other key is unaffected. -/
theorem mapLookup_insert {β : Type} (m : List (String × β)) (k k' : String) (v : β) :
    mapLookup (mapInsert m k v) k' = if k = k' then some v else mapLookup m k' := by
  induction m with
  | nil => simp [mapInsert, mapLookup]
  | cons hd tl ih =>
    obtain ⟨k1, v1⟩ := hd
    by_cases h1 : k1 = k
    · subst h1
      simp only [mapInsert, if_pos rfl, mapLookup]
      by_cases h2 : k1 = k'
      · simp [h2]
      · simp [h2]
    · simp only [mapInsert, if_neg h1, mapLookup, ih]
      by_cases h2 : k1 = k'
      · subst h2
        have hk : k ≠ k1 := fun h => h1 h.symm
        simp [hk]
      · simp [h2]

/-- Lookup after a Go `delete`: the deleted key reads back nothing, every
other key is unaffected. -/
theorem mapLookup_erase {β : Type} (m : List (String × β)) (k k' : String) :
    mapLookup (mapErase m k) k' = if k = k' then none else mapLookup m k' := by
  induction m with
  | nil => simp [mapErase, mapLookup]
  | cons hd tl ih =>
    obtain ⟨k1, v1⟩ := hd
    by_cases h1 : k1 = k
    · subst h1
      have he : mapErase ((k1, v1) :: tl) k1 = mapErase tl k1 := by
        simp [mapErase]
      rw [he, ih]
      by_cases h2 : k1 = k'
      · simp [h2]
      · simp [mapLookup, h2]
    · simp only [mapErase, if_neg h1, mapLookup, ih]
      by_cases h2 : k1 = k'
      · subst h2
        have hk : k ≠ k1 := fun h => h1 h.symm
        simp [hk]
      · simp [h2]

/-- The empty-field guard `e == "" || len(e) == 0` is false exactly on
non-empty strings. -/
theorem emptyCheck_false (e : String) (he : e ≠ "") : ¬ (e = "" ∨ e.length = 0) := by
  rintro (h | h)
  · exact he h
  · apply he
    cases e with
    | mk data =>
      cases data with
      | nil => rfl
      | cons c cs => simp [String.length] at h

/-- Invariant (b) of the spec: every stored rating value lies in [1,5]. -/
def ratingsInRange (s : UserStore) : Prop :=
  ∀ e us, mapLookup s e = some us → ∀ u rv, mapLookup us u = some rv → 1 ≤ rv ∧ rv ≤ 5

/-- The states the server can reach: the registry starts empty and evolves
only through the `/user` and `/rating` handlers. -/
inductive Reachable : UserStore → Prop where
  | init : Reachable []
  | userStep (s : UserStore) (r : Request) : Reachable s → Reachable (userHandlers s r).2
  | ratingStep (s : UserStore) (r : Request) : Reachable s → Reachable (ratingHandlers s r).2

/-- Writing a range-respecting rating store into the registry preserves the
range invariant. -/
theorem ratingsInRange_insert (s : UserStore) (e : String) (us : RatingStore)
    (h : ratingsInRange s)
    (hus : ∀ u rv, mapLookup us u = some rv → 1 ≤ rv ∧ rv ≤ 5) :
    ratingsInRange (mapInsert s e us) := by
  intro e1 us1 h1 u rv h2
  rw [mapLookup_insert] at h1
  by_cases he : e = e1
  · rw [if_pos he] at h1
    cases h1
    exact hus u rv h2
  · rw [if_neg he] at h1
    exact h e1 us1 h1 u rv h2

/-- Deleting a user preserves the range invariant. -/
theorem ratingsInRange_erase (s : UserStore) (e : String) (h : ratingsInRange s) :
    ratingsInRange (mapErase s e) := by
  intro e1 us1 h1
  rw [mapLookup_erase] at h1
  by_cases he : e = e1
  · rw [if_pos he] at h1
    cases h1
  · rw [if_neg he] at h1
    exact h e1 us1 h1

/-- Writing an in-range value into a range-respecting rating store keeps it
range-respecting. -/
theorem innerRange_insert (us : RatingStore) (u : String) (rv : Int)
    (hus : ∀ u1 rv1, mapLookup us u1 = some rv1 → 1 ≤ rv1 ∧ rv1 ≤ 5)
    (h1 : 1 ≤ rv) (h5 : rv ≤ 5) :
    ∀ u1 rv1, mapLookup (mapInsert us u rv) u1 = some rv1 → 1 ≤ rv1 ∧ rv1 ≤ 5 := by
  intro u1 rv1 hl
  rw [mapLookup_insert] at hl
  by_cases hu : u = u1
  · rw [if_pos hu] at hl
    cases hl
    exact ⟨h1, h5⟩
  · rw [if_neg hu] at hl
    exact hus u1 rv1 hl

/-- Removing a rating from a range-respecting store keeps it range-respecting. -/
theorem innerRange_erase (us : RatingStore) (u : String)
    (hus : ∀ u1 rv1, mapLookup us u1 = some rv1 → 1 ≤ rv1 ∧ rv1 ≤ 5) :
    ∀ u1 rv1, mapLookup (mapErase us u) u1 = some rv1 → 1 ≤ rv1 ∧ rv1 ≤ 5 := by
  intro u1 rv1 hl
  rw [mapLookup_erase] at hl
  by_cases hu : u = u1
  · rw [if_pos hu] at hl
    cases hl
  · rw [if_neg hu] at hl
    exact hus u1 rv1 hl

/-- `getRatings` never mutates the registry. -/
theorem getRatings_state (s : UserStore) (r : Request) : (getRatings s r).2 = s := by
  unfold getRatings
  repeat' split
  all_goals rfl

/-- On any 4xx response, `createUser` leaves the registry unchanged. -/
theorem createUser_state_on_error (s : UserStore) (r : Request)
    (h : 400 ≤ (createUser s r).1.status) : (createUser s r).2 = s := by
  revert h
  unfold createUser
  repeat' split
  all_goals intro h
  all_goals first | rfl | simp at h

/-- On any 4xx response, `deleteUser` leaves the registry unchanged. -/
theorem deleteUser_state_on_error (s : UserStore) (r : Request)
    (h : 400 ≤ (deleteUser s r).1.status) : (deleteUser s r).2 = s := by
  revert h
  unfold deleteUser
  repeat' split
  all_goals intro h
  all_goals first | rfl | simp at h

/-- On any 4xx response, `saveRating` leaves the registry unchanged. -/
theorem saveRating_state_on_error (s : UserStore) (r : Request)
    (h : 400 ≤ (saveRating s r).1.status) : (saveRating s r).2 = s := by
  revert h
  unfold saveRating
  repeat' split
  all_goals intro h
  all_goals first | rfl | simp at h

/-- On any 4xx response, `getRatings` leaves the registry unchanged. -/
theorem getRatings_state_on_error (s : UserStore) (r : Request)
    (_h : 400 ≤ (getRatings s r).1.status) : (getRatings s r).2 = s :=
  getRatings_state s r

/-- On any 4xx response, `updateRating` leaves the registry unchanged. -/
theorem updateRating_state_on_error (s : UserStore) (r : Request)
    (h : 400 ≤ (updateRating s r).1.status) : (updateRating s r).2 = s := by
  revert h
  unfold updateRating
  repeat' split
  all_goals intro h
  all_goals first | rfl | simp at h

/-- On any 4xx response, `deleteRating` leaves the registry unchanged. -/
theorem deleteRating_state_on_error (s : UserStore) (r : Request)
    (h : 400 ≤ (deleteRating s r).1.status) : (deleteRating s r).2 = s := by
  revert h
  unfold deleteRating
  repeat' split
  all_goals intro h
  all_goals first | rfl | simp at h

/-- On any 4xx response, the `/user` handler leaves the registry unchanged. -/
theorem userHandlers_state_on_error (s : UserStore) (r : Request)
    (h : 400 ≤ (userHandlers s r).1.status) : (userHandlers s r).2 = s := by
  revert h
  unfold userHandlers
  split
  · exact createUser_state_on_error s r
  split
  · exact deleteUser_state_on_error s r
  · intro h
    rfl

/-- On any 4xx response, the `/rating` handler leaves the registry unchanged. -/
theorem ratingHandlers_state_on_error (s : UserStore) (r : Request)
    (h : 400 ≤ (ratingHandlers s r).1.status) : (ratingHandlers s r).2 = s := by
  revert h
  unfold ratingHandlers
  split
  · intro h
    rfl
  split
  · exact getRatings_state_on_error s r
  split
  · exact updateRating_state_on_error s r
  split
  · exact saveRating_state_on_error s r
  split
  · exact deleteRating_state_on_error s r
  · intro h
    rfl

/-- `createUser` preserves the rating-range invariant. -/
theorem createUser_preserves (s : UserStore) (r : Request) (h : ratingsInRange s) :
    ratingsInRange (createUser s r).2 := by
  unfold createUser
  split
  · exact h
  split
  · exact h
  split
  · exact h
  · refine ratingsInRange_insert s r.email [] h ?_
    intro u rv hl
    simp [mapLookup] at hl

/-- `deleteUser` preserves the rating-range invariant. -/
theorem deleteUser_preserves (s : UserStore) (r : Request) (h : ratingsInRange s) :
    ratingsInRange (deleteUser s r).2 := by
  unfold deleteUser
  split
  · exact h
  split
  · exact h
  split
  · exact ratingsInRange_erase s r.email h
  · exact h

/-- `saveRating` preserves the rating-range invariant. -/
theorem saveRating_preserves (s : UserStore) (r : Request) (h : ratingsInRange s) :
    ratingsInRange (saveRating s r).2 := by
  unfold saveRating
  split
  · exact h
  split
  · exact h
  split
  · exact h
  next hg =>
    split
    · exact h
    next existingUser heq =>
      split
      · exact h
      next hnone =>
        have hb : 1 ≤ r.rating ∧ r.rating ≤ 5 := by
          push_neg at hg
          omega
        exact ratingsInRange_insert s r.email _ h
          (innerRange_insert existingUser r.imageURL r.rating
            (h r.email existingUser heq) hb.1 hb.2)

/-- `getRatings` preserves the rating-range invariant. -/
theorem getRatings_preserves (s : UserStore) (r : Request) (h : ratingsInRange s) :
    ratingsInRange (getRatings s r).2 := by
  rw [getRatings_state]
  exact h

/-- `updateRating` preserves the rating-range invariant. -/
theorem updateRating_preserves (s : UserStore) (r : Request) (h : ratingsInRange s) :
    ratingsInRange (updateRating s r).2 := by
  unfold updateRating
  split
  · exact h
  split
  · exact h
  split
  · exact h
  next hg =>
    split
    · exact h
    next existingUser heq =>
      split
      · exact h
      next rv hsome =>
        have hb : 1 ≤ r.rating ∧ r.rating ≤ 5 := by
          push_neg at hg
          omega
        exact ratingsInRange_insert s r.email _ h
          (innerRange_insert existingUser r.imageURL r.rating
            (h r.email existingUser heq) hb.1 hb.2)

/-- `deleteRating` preserves the rating-range invariant. -/
theorem deleteRating_preserves (s : UserStore) (r : Request) (h : ratingsInRange s) :
    ratingsInRange (deleteRating s r).2 := by
  unfold deleteRating
  split
  · exact h
  split
  · exact h
  split
  · exact h
  next existingUser heq =>
    split
    · exact h
    next rv hsome =>
      exact ratingsInRange_insert s r.email _ h
        (innerRange_erase existingUser r.imageURL (h r.email existingUser heq))

/-- The `/user` handler preserves the rating-range invariant. -/
theorem userHandlers_preserves (s : UserStore) (r : Request) (h : ratingsInRange s) :
    ratingsInRange (userHandlers s r).2 := by
  unfold userHandlers
  split
  · exact createUser_preserves s r h
  split
  · exact deleteUser_preserves s r h
  · exact h

/-- The `/rating` handler preserves the rating-range invariant. -/
theorem ratingHandlers_preserves (s : UserStore) (r : Request) (h : ratingsInRange s) :
    ratingsInRange (ratingHandlers s r).2 := by
  unfold ratingHandlers
  split
  · exact h
  split
  · exact getRatings_preserves s r h
  split
  · exact updateRating_preserves s r h
  split
  · exact saveRating_preserves s r h
  split
  · exact deleteRating_preserves s r h
  · exact h

/-- Scenario request: POST /user with body email a@x.com. -/
def reqCreateA : Request := ⟨POST, APPLICATION_JSON, "a@x.com", "", 0, ""⟩

/-- Scenario request: POST /rating rating 5 for a@x.com on https://img/1. -/
def reqRateA5 : Request := ⟨POST, APPLICATION_JSON, "a@x.com", "https://img/1", 5, ""⟩

/-- Scenario request: GET /rating for a@x.com (email both in body and query). -/
def reqListA : Request := ⟨GET, APPLICATION_JSON, "a@x.com", "", 0, "a@x.com"⟩

/-- Scenario request: PUT /rating rating 3 for a@x.com on https://img/1. -/
def reqUpdateA3 : Request := ⟨PUT, APPLICATION_JSON, "a@x.com", "https://img/1", 3, ""⟩

/-- Scenario request: DELETE /rating for a@x.com on https://img/1. -/
def reqDeleteA : Request := ⟨DELETE, APPLICATION_JSON, "a@x.com", "https://img/1", 0, ""⟩

/-- Scenario state after creating user a@x.com. -/
def state1 : UserStore := (userHandlers [] reqCreateA).2

/-- Scenario state after rating https://img/1 with 5. -/
def state2 : UserStore := (ratingHandlers state1 reqRateA5).2

/-- Scenario state after the first listing. -/
def state3 : UserStore := (ratingHandlers state2 reqListA).2

/-- Scenario state after updating the rating to 3. -/
def state4 : UserStore := (ratingHandlers state3 reqUpdateA3).2

/-- Scenario state after the second listing. -/
def state5 : UserStore := (ratingHandlers state4 reqListA).2

/-- Scenario state after deleting the rating. -/
def state6 : UserStore := (ratingHandlers state5 reqDeleteA).2

/-- A registry holding user a@x.com with rating 5 for https://img/1. -/
def dupState : UserStore := [("a@x.com", [("https://img/1", 5)])]

/-- C3: starting from an empty store, the sequence createUser(a@x.com);
createRating(a@x.com, https://img/1, 5); listRatings; updateRating(.., 3);
listRatings; deleteRating; listRatings returns, in order: 201 Created,
201 Created, 200 with the single-entry mapping rating 5, 204 Updated,
200 with the mapping now holding rating 3, 204 Deleted, and finally 200
with the empty mapping. -/
theorem claim_C3_crud_scenario :
    (userHandlers [] reqCreateA).1 = ⟨201, .userCreated "a@x.com"⟩ ∧
    (ratingHandlers state1 reqRateA5).1 = ⟨201, .ratingSaved⟩ ∧
    (ratingHandlers state2 reqListA).1 = ⟨200, .ratingsJson [("https://img/1", 5)]⟩ ∧
    (ratingHandlers state3 reqUpdateA3).1 = ⟨204, .ratingUpdated⟩ ∧
    (ratingHandlers state4 reqListA).1 = ⟨200, .ratingsJson [("https://img/1", 3)]⟩ ∧
    (ratingHandlers state5 reqDeleteA).1 = ⟨204, .ratingDeleted⟩ ∧
    (ratingHandlers state6 reqListA).1 = ⟨200, .ratingsJson []⟩ := by
  decide

/-- C5: every reachable registry state stores only rating values in [1,5]:
both `saveRating` and `updateRating` reject out-of-range values with a 400
before storing anything, and every other operation only removes or copies
entries, so the range invariant holds in every state the server can reach. -/
theorem claim_C5_rating_range_invariant (s : UserStore) (h : Reachable s) :
    ratingsInRange s := by
  induction h with
  | init =>
    intro e us hl
    simp [mapLookup] at hl
  | userStep s r hr ih => exact userHandlers_preserves s r ih
  | ratingStep s r hr ih => exact ratingHandlers_preserves s r ih

/-- Witness for C5: the state reached by creating user a@x.com and then
rating https://img/1 with 5 is reachable and satisfies the invariant. -/
theorem claim_C5_witness : ratingsInRange state2 :=
  claim_C5_rating_range_invariant state2
    (Reachable.ratingStep state1 reqRateA5 (Reachable.userStep [] reqCreateA Reachable.init))

/-- A POST /rating request whose email names no user and whose imageURL is
empty. -/
def reqGhostEmptyURL : Request := ⟨POST, APPLICATION_JSON, "ghost@x.com", "", 5, ""⟩

/-- C1 counterexample: on the empty registry, createRating with the
non-empty email ghost@x.com (no such user) and an empty imageURL fails with
the missing-imageURL validation error, not with UserNotFound: field
validation of imageURL and rating runs before user resolution. -/
theorem claim_C1_counterexample :
    (saveRating [] reqGhostEmptyURL).1 = ⟨400, .needImageURL⟩ ∧
    (saveRating [] reqGhostEmptyURL).1 ≠ ⟨400, .userNotExist "ghost@x.com"⟩ := by
  decide

/-- C1 amended: in every rating-ledger operation the email non-emptiness
check runs first, then the remaining field checks of that operation
(imageURL non-empty for create, update and delete; rating in [1,5] for
create and update only), and only then is the user resolved; hence a
non-empty email naming an absent user yields the UserNotFound error, with
the registry unchanged, provided those fields pass validation — listRatings
has no other fields and fails with UserNotFound for any absent non-empty
email, and deleteRating needs no rating. -/
theorem claim_C1_user_not_found_after_field_checks (s : UserStore) (r : Request)
    (he : r.email ≠ "") (habs : mapLookup s r.email = none) :
    (r.imageURL ≠ "" → 1 ≤ r.rating → r.rating ≤ 5 →
      saveRating s r = (⟨400, .userNotExist r.email⟩, s)) ∧
    getRatings s r = (⟨400, .userNotExist r.email⟩, s) ∧
    (r.imageURL ≠ "" → 1 ≤ r.rating → r.rating ≤ 5 →
      updateRating s r = (⟨400, .userNotExist r.email⟩, s)) ∧
    (r.imageURL ≠ "" →
      deleteRating s r = (⟨400, .userNotExist r.email⟩, s)) := by
  have hge := emptyCheck_false r.email he
  have hgu : r.imageURL ≠ "" → ¬ (r.imageURL = "" ∨ r.email.length = 0) := by
    intro hu
    rintro (hx | hx)
    · exact hu hx
    · exact hge (Or.inr hx)
  refine ⟨?_, ?_, ?_, ?_⟩
  · intro hu hr1 hr5
    have hgr : ¬ (r.rating < 1 ∨ r.rating > 5) := by omega
    unfold saveRating
    rw [if_neg hge, if_neg (hgu hu), if_neg hgr, habs]
  · unfold getRatings
    rw [if_neg hge, habs]
  · intro hu hr1 hr5
    have hgr : ¬ (r.rating < 1 ∨ r.rating > 5) := by omega
    unfold updateRating
    rw [if_neg hge, if_neg (hgu hu), if_neg hgr, habs]
  · intro hu
    unfold deleteRating
    rw [if_neg hge, if_neg (hgu hu), habs]

/-- A well-formed POST /rating request for a user absent from the registry. -/
def reqGhostFull : Request := ⟨POST, APPLICATION_JSON, "ghost@x.com", "https://img/1", 5, ""⟩

/-- A GET /rating request for the absent user ghost@x.com, with imageURL
and rating at their JSON zero values, as a decoded GET body has them. -/
def reqGhostList : Request := ⟨GET, APPLICATION_JSON, "ghost@x.com", "", 0, ""⟩

/-- A PUT /rating request for the absent user ghost@x.com. -/
def reqGhostPut : Request := ⟨PUT, APPLICATION_JSON, "ghost@x.com", "https://img/1", 5, ""⟩

/-- A DELETE /rating request for the absent user ghost@x.com, with the
rating at its JSON zero value, as a decoded DELETE body has it. -/
def reqGhostDelete : Request := ⟨DELETE, APPLICATION_JSON, "ghost@x.com", "https://img/1", 0, ""⟩

/-- Witness for C1: on the empty registry, all four rating-ledger
operations fail with UserNotFound for the absent user ghost@x.com — create
and update with valid fields, list with empty imageURL and rating 0, and
delete with rating 0. -/
theorem claim_C1_witness :
    mapLookup ([] : UserStore) "ghost@x.com" = none ∧
    saveRating [] reqGhostFull = (⟨400, .userNotExist "ghost@x.com"⟩, []) ∧
    getRatings [] reqGhostList = (⟨400, .userNotExist "ghost@x.com"⟩, []) ∧
    updateRating [] reqGhostPut = (⟨400, .userNotExist "ghost@x.com"⟩, []) ∧
    deleteRating [] reqGhostDelete = (⟨400, .userNotExist "ghost@x.com"⟩, []) :=
  ⟨rfl,
   (claim_C1_user_not_found_after_field_checks [] reqGhostFull
      (by decide) rfl).1 (by decide) (by decide) (by decide),
   (claim_C1_user_not_found_after_field_checks [] reqGhostList
      (by decide) rfl).2.1,
   (claim_C1_user_not_found_after_field_checks [] reqGhostPut
      (by decide) rfl).2.2.1 (by decide) (by decide) (by decide),
   (claim_C1_user_not_found_after_field_checks [] reqGhostDelete
      (by decide) rfl).2.2.2 (by decide)⟩

/-- C2: whenever an operation or handler answers with any 4xx status
(validation error, not-found, conflict, unsupported media type, or method
not allowed), the registry state it returns is exactly the state it was
given: no partial writes happen on any error path. -/
theorem claim_C2_no_partial_writes_on_error (s : UserStore) (r : Request) :
    (400 ≤ (createUser s r).1.status → (createUser s r).2 = s) ∧
    (400 ≤ (deleteUser s r).1.status → (deleteUser s r).2 = s) ∧
    (400 ≤ (saveRating s r).1.status → (saveRating s r).2 = s) ∧
    (400 ≤ (getRatings s r).1.status → (getRatings s r).2 = s) ∧
    (400 ≤ (updateRating s r).1.status → (updateRating s r).2 = s) ∧
    (400 ≤ (deleteRating s r).1.status → (deleteRating s r).2 = s) ∧
    (400 ≤ (userHandlers s r).1.status → (userHandlers s r).2 = s) ∧
    (400 ≤ (ratingHandlers s r).1.status → (ratingHandlers s r).2 = s) :=
  ⟨createUser_state_on_error s r, deleteUser_state_on_error s r,
   saveRating_state_on_error s r, fun _ => getRatings_state s r,
   updateRating_state_on_error s r, deleteRating_state_on_error s r,
   userHandlers_state_on_error s r, ratingHandlers_state_on_error s r⟩

/-- A POST /user request with the wrong content-type. -/
def reqBadCT : Request := ⟨POST, "text/plain", "a@x.com", "", 0, ""⟩

/-- Witness for C2: a createUser call rejected with 415 for its
content-type leaves the empty registry empty. -/
theorem claim_C2_witness :
    400 ≤ (createUser [] reqBadCT).1.status ∧ (createUser [] reqBadCT).2 = [] :=
  ⟨by decide, (claim_C2_no_partial_writes_on_error [] reqBadCT).1 (by decide)⟩

/-- C4: what `imageHandler` actually does on each provider outcome: a
transport error makes it call os.Exit(1) and a decode error makes it
panic — in both cases the process ends with no error reported to the
caller and the image cache unchanged; on success the single returned
record is inserted into the cache keyed by its url (overwriting any prior
entry, by the mapInsert semantics) and returned with status 200. -/
theorem claim_C4_fetch_failure_behavior (c : ImageCache) (img : Image) :
    imageHandler .transportError c = (.exit 1, c) ∧
    imageHandler .parseError c = (.panicked, c) ∧
    imageHandler (.ok [img]) c =
      (.response ⟨200, .imageJson img⟩, mapInsert c img.url img) :=
  ⟨rfl, rfl, rfl⟩

/-- A duplicate POST /rating carrying the out-of-range rating 0. -/
def reqDupZero : Request := ⟨POST, APPLICATION_JSON, "a@x.com", "https://img/1", 0, ""⟩

/-- C6 counterexample: with rating 5 already stored for
(a@x.com, https://img/1), a duplicate createRating whose rating field is 0
fails with the invalid-rating validation error, not with AlreadyExists:
the range check runs before the duplicate check. -/
theorem claim_C6_counterexample :
    mapLookup dupState "a@x.com" = some [("https://img/1", 5)] ∧
    (saveRating dupState reqDupZero).1 = ⟨400, .needRating⟩ ∧
    (saveRating dupState reqDupZero).1 ≠ ⟨400, .imageExists "https://img/1"⟩ := by
  decide

/-- C6 amended: create is never an upsert. With the other request fields
passing validation (content-type application/json, non-empty email and
imageURL, rating in [1,5]), createUser on an email already in the registry
fails with AlreadyExists and returns the state unchanged, and createRating
on a pair that already has a rating fails with AlreadyExists and returns
the state unchanged; a duplicate createRating whose rating lies outside
[1,5] instead fails earlier with InvalidRating, also leaving the state
unchanged. -/
theorem claim_C6_create_never_upserts (s : UserStore) (r : Request)
    (hct : r.contentType = APPLICATION_JSON) (he : r.email ≠ "")
    (hu : r.imageURL ≠ "") (hr1 : 1 ≤ r.rating) (hr5 : r.rating ≤ 5) :
    (∀ us, mapLookup s r.email = some us →
       createUser s r = (⟨400, .userExists r.email⟩, s)) ∧
    (∀ us rv, mapLookup s r.email = some us → mapLookup us r.imageURL = some rv →
       saveRating s r = (⟨400, .imageExists r.imageURL⟩, s)) := by
  have hge := emptyCheck_false r.email he
  have hgu : ¬ (r.imageURL = "" ∨ r.email.length = 0) := by
    rintro (hx | hx)
    · exact hu hx
    · exact hge (Or.inr hx)
  have hgr : ¬ (r.rating < 1 ∨ r.rating > 5) := by omega
  have hctn : ¬ r.contentType ≠ APPLICATION_JSON := by simp [hct]
  constructor
  · intro us hls
    unfold createUser
    rw [if_neg hctn, if_neg hge, hls]
  · intro us rv hls hlu
    unfold saveRating
    rw [if_neg hge, if_neg hgu, if_neg hgr]
    simp only [hls, hlu]

/-- A duplicate POST /rating carrying the in-range rating 2. -/
def reqDupTwo : Request := ⟨POST, APPLICATION_JSON, "a@x.com", "https://img/1", 2, ""⟩

/-- Witness for C6: with rating 5 stored for (a@x.com, https://img/1), a
duplicate createUser and a duplicate createRating with valid fields both
fail with AlreadyExists and leave the state unchanged. -/
theorem claim_C6_witness :
    createUser dupState reqDupTwo = (⟨400, .userExists "a@x.com"⟩, dupState) ∧
    saveRating dupState reqDupTwo = (⟨400, .imageExists "https://img/1"⟩, dupState) :=
  ⟨(claim_C6_create_never_upserts dupState reqDupTwo rfl
      (by decide) (by decide) (by decide) (by decide)).1 [("https://img/1", 5)] (by decide),
   (claim_C6_create_never_upserts dupState reqDupTwo rfl
      (by decide) (by decide) (by decide) (by decide)).2 [("https://img/1", 5)] 5
      (by decide) (by decide)⟩

/-- C7: with content-type application/json and a non-empty email, deleteUser
always reports 204, afterwards the email is no longer a key of the registry
(its whole rating collection is gone with the record), and in particular
createUser followed by deleteUser leaves the registry without the email. -/
theorem claim_C7_delete_user_idempotent (s : UserStore) (r : Request)
    (hct : r.contentType = APPLICATION_JSON) (he : r.email ≠ "") :
    (deleteUser s r).1 = ⟨204, .userDeleted r.email⟩ ∧
    mapLookup (deleteUser s r).2 r.email = none ∧
    mapLookup (deleteUser (createUser s r).2 r).2 r.email = none := by
  have hctn : ¬ r.contentType ≠ APPLICATION_JSON := by simp [hct]
  have hge := emptyCheck_false r.email he
  have key : ∀ t : UserStore, (deleteUser t r).1 = ⟨204, .userDeleted r.email⟩ ∧
      mapLookup (deleteUser t r).2 r.email = none := by
    intro t
    unfold deleteUser
    rw [if_neg hctn, if_neg hge]
    cases hl : mapLookup t r.email with
    | none => exact ⟨rfl, hl⟩
    | some us =>
      refine ⟨rfl, ?_⟩
      rw [mapLookup_erase]
      simp
  exact ⟨(key s).1, (key s).2, (key (createUser s r).2).2⟩

/-- A DELETE /user request for a@x.com. -/
def reqDeleteUserA : Request := ⟨DELETE, APPLICATION_JSON, "a@x.com", "", 0, ""⟩

/-- Witness for C7: deleting a@x.com from a registry that holds it (with a
rating) reports 204 and removes the key; deleting it from the empty
registry also reports 204. -/
theorem claim_C7_witness :
    (deleteUser dupState reqDeleteUserA).1 = ⟨204, .userDeleted "a@x.com"⟩ ∧
    mapLookup (deleteUser dupState reqDeleteUserA).2 "a@x.com" = none ∧
    (deleteUser [] reqDeleteUserA).1 = ⟨204, .userDeleted "a@x.com"⟩ :=
  ⟨(claim_C7_delete_user_idempotent dupState reqDeleteUserA rfl (by decide)).1,
   (claim_C7_delete_user_idempotent dupState reqDeleteUserA rfl (by decide)).2.1,
   (claim_C7_delete_user_idempotent [] reqDeleteUserA rfl (by decide)).1⟩

/-- C9: the /rating handler rejects every request whose content-type is not
application/json with 415, before the method dispatch and hence for every
method including GET; and getRatings reads the email from the JSON body
field only: its result is unchanged when the query-string email differs,
and a found body email yields that user's ratings with 200. -/
theorem claim_C9_content_type_then_body_email (s : UserStore) (r : Request) :
    (r.contentType ≠ APPLICATION_JSON →
      ratingHandlers s r = (⟨415, .needJson r.contentType⟩, s)) ∧
    (∀ q : String,
      getRatings s (Request.mk r.method r.contentType r.email r.imageURL r.rating q) =
        getRatings s r) ∧
    (r.email ≠ "" → ∀ us, mapLookup s r.email = some us →
      getRatings s r = (⟨200, .ratingsJson us⟩, s)) := by
  refine ⟨?_, ?_, ?_⟩
  · intro hct
    unfold ratingHandlers
    rw [if_pos hct]
  · intro q
    rfl
  · intro he us hls
    unfold getRatings
    rw [if_neg (emptyCheck_false r.email he), hls]

/-- A GET /rating request with the wrong content-type. -/
def reqListBadCT : Request := ⟨GET, "text/plain", "a@x.com", "", 0, "a@x.com"⟩

/-- A GET /rating request whose body email a@x.com differs from its
query-string email zzz@q.com. -/
def reqListBodyA : Request := ⟨GET, APPLICATION_JSON, "a@x.com", "", 0, "zzz@q.com"⟩

/-- Witness for C9: a GET /rating with content-type text/plain gets 415
with no state change, and a GET whose query email differs from its body
email answers for the body email. -/
theorem claim_C9_witness :
    ratingHandlers dupState reqListBadCT = (⟨415, .needJson "text/plain"⟩, dupState) ∧
    getRatings dupState reqListBodyA = (⟨200, .ratingsJson [("https://img/1", 5)]⟩, dupState) :=
  ⟨(claim_C9_content_type_then_body_email dupState reqListBadCT).1 (by decide),
   (claim_C9_content_type_then_body_email dupState reqListBodyA).2.2 (by decide)
     [("https://img/1", 5)] (by decide)⟩

/-- C10: the only validation applied to email and imageURL is
non-emptiness: any non-empty email string not already a key is accepted by
createUser, and any non-empty imageURL string is accepted by createRating
when the user exists, the rating is in [1,5] and the pair is unrated —
regardless of the shape of either string. -/
theorem claim_C10_only_nonempty_validation (s : UserStore) (r : Request)
    (hct : r.contentType = APPLICATION_JSON)
    (he : r.email ≠ "") (hu : r.imageURL ≠ "")
    (hr1 : 1 ≤ r.rating) (hr5 : r.rating ≤ 5) :
    (mapLookup s r.email = none →
      createUser s r = (⟨201, .userCreated r.email⟩, mapInsert s r.email [])) ∧
    (∀ us, mapLookup s r.email = some us → mapLookup us r.imageURL = none →
      saveRating s r =
        (⟨201, .ratingSaved⟩, mapInsert s r.email (mapInsert us r.imageURL r.rating))) := by
  have hge := emptyCheck_false r.email he
  have hgu : ¬ (r.imageURL = "" ∨ r.email.length = 0) := by
    rintro (hx | hx)
    · exact hu hx
    · exact hge (Or.inr hx)
  have hgr : ¬ (r.rating < 1 ∨ r.rating > 5) := by omega
  have hctn : ¬ r.contentType ≠ APPLICATION_JSON := by simp [hct]
  constructor
  · intro habs
    unfold createUser
    rw [if_neg hctn, if_neg hge, habs]
  · intro us hls hlu
    unfold saveRating
    rw [if_neg hge, if_neg hgu, if_neg hgr]
    simp only [hls, hlu]

/-- A POST request whose email is not shaped like an email address and
whose imageURL is not shaped like a URL. -/
def reqOddNames : Request :=
  ⟨POST, APPLICATION_JSON, "definitely not an email", "not a url at all", 4, ""⟩

/-- A registry holding only the odd-named user with no ratings. -/
def oddState : UserStore := [("definitely not an email", [])]

/-- Witness for C10: the odd-shaped email is accepted by createUser on the
empty registry, and the odd-shaped imageURL is accepted by createRating
once that user exists. -/
theorem claim_C10_witness :
    createUser [] reqOddNames =
      (⟨201, .userCreated "definitely not an email"⟩,
        mapInsert [] "definitely not an email" []) ∧
    saveRating oddState reqOddNames =
      (⟨201, .ratingSaved⟩,
        mapInsert oddState "definitely not an email" (mapInsert [] "not a url at all" 4)) :=
  ⟨(claim_C10_only_nonempty_validation [] reqOddNames rfl
      (by decide) (by decide) (by decide) (by decide)).1 rfl,
   (claim_C10_only_nonempty_validation oddState reqOddNames rfl
      (by decide) (by decide) (by decide) (by decide)).2 [] (by decide) (by decide)⟩

end ApodServer
